import Mathlib

/-!
Verification of `upload_to_drive.py` (upload a local file to a Google Drive
folder with fixed-delay retry).

The script is shallowly embedded.  The Google Drive backend is abstracted
into per-attempt *response oracles* (`AttemptEnv`): each attempt of the retry
loop re-issues the lookup / create-or-update / verify calls, and the oracle
fixes what the backend answers on that attempt.  Observable behaviour —
backend calls issued, sleeps, the appended `file-id=` output line — is
recorded as a trace of `Event`s.
-/

namespace UploadToDrive

/-- A file record returned by the Drive `files().list` call:
`fields="files(id, name)"` in `find_existing_file`. -/
structure RemoteObject where
  id : String
  name : String
deriving DecidableEq, Repr

/-- Observable events of a run: backend calls, retry sleeps, the start of
each attempt (the `Attempt i+1/N` print at the head of the loop body), the
`file-id=...` line appended to the `GITHUB_OUTPUT` file, and the
verbose-gated log lines. -/
inductive Event where
  | attemptStart (i : Nat)
  | listCall
  | updateCall (fileId : String)
  | createCall
  | getCall (fileId : String)
  | sleepEvent (seconds : Int)
  | outputLine (line : String)
  | log (line : String)
deriving DecidableEq, Repr

/-- The metadata dict returned by the verification `files().get` call with
`fields='id,name,size'`.  Each field may be absent from the response.  The
code bracket-indexes `file_info['id']` and `file_info['name']` (raising
`KeyError` when absent) but reads size with `file_info.get('size',
'unknown')` (total). -/
structure FileInfo where
  id : Option String
  name : Option String
  size : Option String
deriving DecidableEq, Repr

/-- Backend responses for one attempt of the retry loop, plus the state of
the local filesystem.  `listResp` is the response to the `files().list`
query issued by `find_existing_file` for the target name in the folder;
`updateResp fid` is the response (the `id` field of the returned dict, which
may be absent, hence `Option`) to `files().update(fileId=fid, ...)`;
`createResp` likewise for `files().create`; `getResp fid` is the outcome of
the verification `files().get(fileId=fid)`: on success, the metadata record
whose fields may each be missing.  `.error` means the call raised
(`HttpError` or otherwise).  `raisesUnexpected` models an unexpected
exception escaping the attempt body and reaching the `except` handler of
`upload_with_retry` (line 262). -/
structure AttemptEnv where
  fileExists : Bool
  listResp : Except String (List RemoteObject)
  updateResp : String → Except String (Option String)
  createResp : Except String (Option String)
  getResp : String → Except String FileInfo
  raisesUnexpected : Bool

/-- `find_existing_file(service, folder_id, filename)`: issues the filtered
list query; returns `files[0] if files else None`, and on any exception
prints a warning and returns `None` (never propagates). -/
def find_existing_file (listResp : Except String (List RemoteObject)) :
    Option RemoteObject :=
  match listResp with
  | .error _ => none
  | .ok files => files.head?

/-- `upload_file(service, file_path, target_name, folder_id, overwrite,
verbose)`.  Returns the file id (or `none`) together with the backend calls
it issued.  Mirrors the source: missing local file → log and `None` with no
network call; then lookup; existing + overwrite → `files().update` addressed
by the existing id; existing + no overwrite → conflict log, `None`; not
found → `files().create`; every exception in the body is caught and turned
into `None`. -/
def upload_file (env : AttemptEnv) (overwrite verbose : Bool) :
    Option String × List Event :=
  if env.fileExists = false then
    (none, [])
  else
    match find_existing_file env.listResp with
    | some existing_file =>
      if overwrite then
        match env.updateResp existing_file.id with
        | .ok respId => (respId, [Event.listCall, Event.updateCall existing_file.id])
        | .error _ => (none, [Event.listCall, Event.updateCall existing_file.id])
      else
        (none, [Event.listCall])
    | none =>
      match env.createResp with
      | .ok respId =>
        (respId, [Event.listCall, Event.createCall] ++
          (if verbose then [Event.log "  Size: ... bytes"] else []))
      | .error _ => (none, [Event.listCall, Event.createCall])

/-- Python truthiness of the `file_id` value checked by
`if file_id:` in `upload_with_retry`: `None` and `""` are falsy. -/
def truthy : Option String → Bool
  | none => false
  | some s => !s.isEmpty

/-- Run-level environment: the backend oracle for each attempt index, and
whether the `GITHUB_OUTPUT` path (defaulting to `/dev/null`) can be opened
for append — if opening raises, the exception is swallowed by the
verification `except` and the run still returns success. -/
structure RunEnv where
  attemptEnv : Nat → AttemptEnv
  outputWritable : Bool

/-- The body of `for attempt in range(max_attempts):` in
`upload_with_retry`, recursing on the number of remaining iterations;
`attempt` is the current loop index.  Returns the boolean result of
`upload_with_retry` and the event trace.  Faithful to the source:
a truthy id leads to the verification fetch (`getResp`), all inside one
`try` whose `except` returns `True`; if the fetch raises, the run still
returns `True` with nothing written; if it returns, then under `verbose`
the code bracket-indexes `file_info['id']` and `file_info['name']`, so a
missing field raises `KeyError` there — caught, return `True`, skipping
the `GITHUB_OUTPUT` write; only when the verbose prints complete (or
`verbose` is off) is the `file-id=` line appended (if the output file
opens).  A falsy id with `not overwrite and attempt == 0` returns `False`
at once; otherwise sleep `retry_delay` when `attempt < max_attempts - 1`
and continue; an unexpected exception is caught, then the same
sleep-and-continue logic applies (without the attempt-0 short-circuit). -/
def upload_loop (env : RunEnv) (overwrite verbose : Bool)
    (retry_delay max_attempts : Int) : Nat → Nat → Bool × List Event
  | _, 0 => (false, [])
  | attempt, remaining + 1 =>
    let aenv := env.attemptEnv attempt
    let sleepEvs : List Event :=
      if (attempt : Int) < max_attempts - 1 then [Event.sleepEvent retry_delay] else []
    if aenv.raisesUnexpected then
      let rest := upload_loop env overwrite verbose retry_delay max_attempts (attempt + 1) remaining
      (rest.1, Event.attemptStart attempt :: (sleepEvs ++ rest.2))
    else
      let res := upload_file aenv overwrite verbose
      if truthy res.1 then
        let id := res.1.getD ""
        let outEvs : List Event :=
          if env.outputWritable then [Event.outputLine ("file-id=" ++ id)] else []
        match aenv.getResp id with
        | .ok info =>
          if verbose then
            match info.id with
            | none =>
              (true, Event.attemptStart attempt :: (res.2 ++ [Event.getCall id]))
            | some infoId =>
              match info.name with
              | none =>
                (true, Event.attemptStart attempt ::
                  (res.2 ++ [Event.getCall id, Event.log ("  File ID: " ++ infoId)]))
              | some infoName =>
                (true, Event.attemptStart attempt :: (res.2 ++ Event.getCall id ::
                  Event.log ("  File ID: " ++ infoId) ::
                  Event.log ("  File name: " ++ infoName) ::
                  Event.log ("  File size: " ++ info.size.getD "unknown" ++ " bytes") ::
                  outEvs))
          else
            (true, Event.attemptStart attempt :: (res.2 ++ Event.getCall id :: outEvs))
        | .error _ =>
          (true, Event.attemptStart attempt :: (res.2 ++ [Event.getCall id]))
      else
        if !overwrite && attempt == 0 then
          (false, Event.attemptStart attempt :: res.2)
        else
          let rest := upload_loop env overwrite verbose retry_delay max_attempts (attempt + 1) remaining
          (rest.1, Event.attemptStart attempt :: (res.2 ++ sleepEvs ++ rest.2))

/-- `upload_with_retry(service, file_path, target_name, folder_id,
max_attempts, retry_delay, overwrite, verbose)`: runs the loop
`for attempt in range(max_attempts)` (empty when `max_attempts <= 0`) and
returns `False` when the loop falls through. -/
def upload_with_retry (env : RunEnv) (max_attempts retry_delay : Int)
    (overwrite verbose : Bool) : Bool × List Event :=
  upload_loop env overwrite verbose retry_delay max_attempts 0 max_attempts.toNat

/-- `sys.exit(0 if success else 1)` at the end of `main`. -/
def exit_status (success : Bool) : Nat := if success then 0 else 1

/-- Recognises the attempt-start marker events. -/
def isAttemptStart : Event → Bool
  | .attemptStart _ => true
  | _ => false

/-- Recognises sleep events. -/
def isSleep : Event → Bool
  | .sleepEvent _ => true
  | _ => false

/-- Recognises backend (network) calls. -/
def isBackendCall : Event → Bool
  | .listCall => true
  | .updateCall _ => true
  | .createCall => true
  | .getCall _ => true
  | _ => false

/-- Recognises the structured `file-id=` output line. -/
def isOutputLine : Event → Bool
  | .outputLine _ => true
  | _ => false

/-- Recognises verbose-gated log lines. -/
def isLog : Event → Bool
  | .log _ => true
  | _ => false

/-- Number of attempts actually executed in a trace. -/
def countAttempts (tr : List Event) : Nat := (tr.filter isAttemptStart).length

/-- The sleeps of a trace, in order. -/
def sleepsOf (tr : List Event) : List Event := tr.filter isSleep

/-- The events emitted by a single `upload_file` call are backend calls and
log lines only, so any predicate false on those filters to nothing. -/
theorem upload_file_filter (env : AttemptEnv) (ow vb : Bool) (p : Event → Bool)
    (h1 : p Event.listCall = false) (h2 : ∀ s, p (Event.updateCall s) = false)
    (h3 : p Event.createCall = false) (h4 : ∀ s, p (Event.log s) = false) :
    (upload_file env ow vb).2.filter p = [] := by
  unfold upload_file
  split
  · simp
  · split
    · split
      · split <;> simp [List.filter, h1, h2, h3]
      · simp [List.filter, h1]
    · split
      · by_cases hv : vb = true <;>
          simp [hv, List.filter_append, List.filter, h1, h3, h4]
      · simp [List.filter, h1, h3]

/-- A single `upload_file` call never emits attempt markers. -/
theorem upload_file_filter_attemptStart (env : AttemptEnv) (ow vb : Bool) :
    (upload_file env ow vb).2.filter isAttemptStart = [] :=
  upload_file_filter env ow vb isAttemptStart rfl (fun _ => rfl) rfl (fun _ => rfl)

/-- A single `upload_file` call never sleeps. -/
theorem upload_file_filter_sleep (env : AttemptEnv) (ow vb : Bool) :
    (upload_file env ow vb).2.filter isSleep = [] :=
  upload_file_filter env ow vb isSleep rfl (fun _ => rfl) rfl (fun _ => rfl)

/-- A single `upload_file` call never writes the output line. -/
theorem upload_file_filter_output (env : AttemptEnv) (ow vb : Bool) :
    (upload_file env ow vb).2.filter isOutputLine = [] :=
  upload_file_filter env ow vb isOutputLine rfl (fun _ => rfl) rfl (fun _ => rfl)

/-- No event satisfying `p` occurs in a list whose `p`-filter is empty. -/
theorem not_mem_of_filter_nil {p : Event → Bool} {l : List Event} {e : Event}
    (h : l.filter p = []) (he : p e = true) : e ∉ l := by
  intro hmem
  have : e ∈ l.filter p := List.mem_filter.mpr ⟨hmem, he⟩
  simp [h] at this

/-- Exhaustion lemma for the retry loop.  If every attempt either raises an
unexpected exception, or returns a falsy id without triggering the
attempt-0 short-circuit (because `overwrite` is set or the index is
positive), then the loop runs all its remaining iterations: it returns
`false`, marks one attempt per iteration, and sleeps `retry_delay` between
consecutive iterations and never after the last. -/
theorem upload_loop_exhaust (env : RunEnv) (ow vb : Bool) (d M : Int)
    (hfail : ∀ i, (env.attemptEnv i).raisesUnexpected = true ∨
      ((env.attemptEnv i).raisesUnexpected = false ∧
       truthy (upload_file (env.attemptEnv i) ow vb).1 = false ∧
       (ow = true ∨ i ≠ 0))) :
    ∀ (remaining attempt : Nat), (attempt : Int) + (remaining : Int) = M →
      (upload_loop env ow vb d M attempt remaining).1 = false ∧
      countAttempts (upload_loop env ow vb d M attempt remaining).2 = remaining ∧
      sleepsOf (upload_loop env ow vb d M attempt remaining).2 =
        List.replicate (remaining - 1) (Event.sleepEvent d) := by
  intro remaining
  induction remaining with
  | zero =>
    intro attempt h
    simp [upload_loop, countAttempts, sleepsOf]
  | succ r ih =>
    intro attempt h
    have hinv : ((attempt + 1 : Nat) : Int) + r = M := by push_cast at h ⊢; omega
    have hcond : ((attempt : Int) < M - 1) ↔ 0 < r := by push_cast at h; omega
    obtain ⟨hrest1, hrest2, hrest3⟩ := ih (attempt + 1) hinv
    have hsleep :
        (if (attempt : Int) < M - 1 then [Event.sleepEvent d] else []).filter isSleep =
          List.replicate (if 0 < r then 1 else 0) (Event.sleepEvent d) := by
      by_cases h0 : 0 < r
      · rw [if_pos (hcond.mpr h0), if_pos h0]; rfl
      · rw [if_neg (fun hc => h0 (hcond.mp hc)), if_neg h0]; rfl
    have hsleepA :
        (if (attempt : Int) < M - 1 then [Event.sleepEvent d] else []).filter isAttemptStart = [] := by
      by_cases h0 : (attempt : Int) < M - 1 <;> simp [h0, isAttemptStart, List.filter]
    rcases hfail attempt with hr | ⟨hr, hfid, _⟩
    · -- the attempt raises: caught, sleep if attempts remain, continue
      simp only [upload_loop, hr, if_true]
      refine ⟨hrest1, ?_, ?_⟩
      · simp only [countAttempts, List.filter_cons, List.filter_append] at hrest2 ⊢
        simp [isAttemptStart, hsleepA, hrest2]
      · simp only [sleepsOf, List.filter_cons, List.filter_append] at hrest3 ⊢
        rw [hrest3]
        by_cases h0 : 0 < r
        · simp only [hsleep, if_pos h0, isSleep]
          cases r with
          | zero => omega
          | succ r2 => simp [List.replicate_succ]
        · have hr0 : r = 0 := by omega
          simp [hsleep, h0, hr0, isSleep]
    · -- the attempt returns a falsy id and does not short-circuit
      rcases hfail attempt with hr2 | ⟨_, _, hsc⟩
      · rw [hr] at hr2; exact absurd hr2 (by simp)
      have hnoshort : (!ow && attempt == 0) = false := by
        rcases hsc with how | hi
        · simp [how]
        · simp [hi]
      simp only [upload_loop, hr, if_false, Bool.false_eq_true, hfid, hnoshort]
      refine ⟨hrest1, ?_, ?_⟩
      · simp only [countAttempts, List.filter_cons, List.filter_append] at hrest2 ⊢
        simp [isAttemptStart, hsleepA, hrest2, upload_file_filter_attemptStart]
      · simp only [sleepsOf, List.filter_cons, List.filter_append] at hrest3 ⊢
        rw [hrest3]
        by_cases h0 : 0 < r
        · simp only [hsleep, if_pos h0, isSleep, upload_file_filter_sleep]
          cases r with
          | zero => omega
          | succ r2 => simp [List.replicate_succ, upload_file_filter_sleep, isSleep]
        · have hr0 : r = 0 := by omega
          simp [hsleep, h0, hr0, isSleep, upload_file_filter_sleep]

/-- If every attempt either raises before any backend call, or completes
`upload_file` with no backend call and a `none` id (as when the local file
is missing), then the whole run issues no backend call. -/
theorem upload_loop_no_backend (env : RunEnv) (ow vb : Bool) (d M : Int)
    (h : ∀ i, (env.attemptEnv i).raisesUnexpected = true ∨
      ((env.attemptEnv i).raisesUnexpected = false ∧
       upload_file (env.attemptEnv i) ow vb = (none, []))) :
    ∀ (remaining attempt : Nat),
      (upload_loop env ow vb d M attempt remaining).2.filter isBackendCall = [] := by
  intro remaining
  induction remaining with
  | zero => intro attempt; simp [upload_loop]
  | succ r ih =>
    intro attempt
    have hsleepB :
        (if (attempt : Int) < M - 1 then [Event.sleepEvent d] else []).filter isBackendCall = [] := by
      by_cases h0 : (attempt : Int) < M - 1 <;> simp [h0, isBackendCall, List.filter]
    rcases h attempt with hr | ⟨hr, hf⟩
    · simp only [upload_loop, hr, if_true, List.filter_cons, List.filter_append]
      simp [isBackendCall, hsleepB, ih (attempt + 1)]
    · have hfid : truthy (upload_file (env.attemptEnv attempt) ow vb).1 = false := by
        rw [hf]; rfl
      simp only [upload_loop, hr, Bool.false_eq_true, if_false, hfid]
      by_cases hsc : (!ow && attempt == 0) = true
      · simp [hsc, List.filter_cons, isBackendCall, hf]
      · simp only [Bool.not_eq_true] at hsc
        simp only [hsc, Bool.false_eq_true, if_false, List.filter_cons, List.filter_append]
        simp [isBackendCall, hsleepB, ih (attempt + 1), hf]

/-- If an output line appears in the trace, the loop returned `True`:
the `file-id=` line is only written on the success path. -/
theorem upload_loop_success_of_output (env : RunEnv) (ow vb : Bool) (d M : Int) :
    ∀ (remaining attempt : Nat) (l : String),
      Event.outputLine l ∈ (upload_loop env ow vb d M attempt remaining).2 →
      (upload_loop env ow vb d M attempt remaining).1 = true := by
  intro remaining
  induction remaining with
  | zero => intro attempt l hmem; simp [upload_loop] at hmem
  | succ r ih =>
    intro attempt l hmem
    have hnoupl : ∀ l2, Event.outputLine l2 ∉ (upload_file (env.attemptEnv attempt) ow vb).2 :=
      fun l2 => not_mem_of_filter_nil (upload_file_filter_output _ _ _) rfl
    have hnosleep : ∀ l2,
        Event.outputLine l2 ∉ (if (attempt : Int) < M - 1 then [Event.sleepEvent d] else []) := by
      intro l2; by_cases h0 : (attempt : Int) < M - 1 <;> simp [h0]
    by_cases hr : (env.attemptEnv attempt).raisesUnexpected = true
    · simp only [upload_loop, hr, if_true] at hmem ⊢
      rcases List.mem_cons.mp hmem with h1 | h2
      · cases h1
      · rcases List.mem_append.mp h2 with h3 | h4
        · exact absurd h3 (hnosleep l)
        · exact ih (attempt + 1) l h4
    · simp only [Bool.not_eq_true] at hr
      simp only [upload_loop, hr, Bool.false_eq_true, if_false] at hmem ⊢
      by_cases htr : truthy (upload_file (env.attemptEnv attempt) ow vb).1 = true
      · simp only [htr, if_true] at hmem ⊢
        rcases hg : (env.attemptEnv attempt).getResp
            ((upload_file (env.attemptEnv attempt) ow vb).1.getD "") with msg | info
        · simp [hg]
        · by_cases hv : vb = true
          · rcases hid2 : info.id with _ | a
            · simp [hg, hv, hid2]
            · rcases hname : info.name with _ | b <;> simp [hg, hv, hid2, hname]
          · simp only [Bool.not_eq_true] at hv
            simp [hg, hv]
      · simp only [Bool.not_eq_true] at htr
        simp only [htr, Bool.false_eq_true, if_false] at hmem ⊢
        by_cases hsc : (!ow && attempt == 0) = true
        · simp only [hsc, if_true] at hmem
          rcases List.mem_cons.mp hmem with h1 | h2
          · cases h1
          · exact absurd h2 (hnoupl l)
        · simp only [Bool.not_eq_true] at hsc
          simp only [hsc, Bool.false_eq_true, if_false] at hmem ⊢
          rcases List.mem_cons.mp hmem with h1 | h2
          · cases h1
          · rcases List.mem_append.mp h2 with h3 | h4
            · rcases List.mem_append.mp h3 with h5 | h6
              · exact absurd h5 (hnoupl l)
              · exact absurd h6 (hnosleep l)
            · exact ih (attempt + 1) l h4

/-- If the `GITHUB_OUTPUT` path is writable and every verification step
completes — the metadata fetch returns, carrying the `id` and `name`
fields the verbose path bracket-indexes — a loop that returns `True`
has appended a `file-id=` line. -/
theorem upload_loop_output_of_success (env : RunEnv) (ow vb : Bool) (d M : Int)
    (hout : env.outputWritable = true)
    (hver : ∀ i s, ∃ info, (env.attemptEnv i).getResp s = .ok info ∧
      info.id ≠ none ∧ info.name ≠ none) :
    ∀ (remaining attempt : Nat),
      (upload_loop env ow vb d M attempt remaining).1 = true →
      ∃ id, Event.outputLine ("file-id=" ++ id) ∈
        (upload_loop env ow vb d M attempt remaining).2 := by
  intro remaining
  induction remaining with
  | zero => intro attempt h1; simp [upload_loop] at h1
  | succ r ih =>
    intro attempt h1
    by_cases hr : (env.attemptEnv attempt).raisesUnexpected = true
    · simp only [upload_loop, hr, if_true] at h1 ⊢
      obtain ⟨id, hid⟩ := ih (attempt + 1) h1
      exact ⟨id, List.mem_cons_of_mem _ (List.mem_append_right _ hid)⟩
    · simp only [Bool.not_eq_true] at hr
      simp only [upload_loop, hr, Bool.false_eq_true, if_false] at h1 ⊢
      by_cases htr : truthy (upload_file (env.attemptEnv attempt) ow vb).1 = true
      · obtain ⟨info, hg, hid2, hname⟩ :=
          hver attempt ((upload_file (env.attemptEnv attempt) ow vb).1.getD "")
        obtain ⟨a, ha⟩ := Option.ne_none_iff_exists'.mp hid2
        obtain ⟨b, hb⟩ := Option.ne_none_iff_exists'.mp hname
        simp only [htr, if_true, hg, ha, hb]
        refine ⟨(upload_file (env.attemptEnv attempt) ow vb).1.getD "", ?_⟩
        by_cases hv : vb = true <;> simp [hv, hout]
      · simp only [Bool.not_eq_true] at htr
        simp only [htr, Bool.false_eq_true, if_false] at h1 ⊢
        by_cases hsc : (!ow && attempt == 0) = true
        · simp [hsc] at h1
        · simp only [Bool.not_eq_true] at hsc
          simp only [hsc, Bool.false_eq_true, if_false] at h1 ⊢
          obtain ⟨id, hid⟩ := ih (attempt + 1) h1
          exact ⟨id, List.mem_cons_of_mem _ (List.mem_append_right _ hid)⟩

/-- The trace restricted to the non-logging events (backend calls, attempt
markers, sleeps, output lines). -/
def observableTrace (tr : List Event) : List Event := tr.filter (fun e => !isLog e)

@[simp] theorem isLog_attemptStart (i : Nat) : isLog (Event.attemptStart i) = false := rfl

@[simp] theorem isLog_listCall : isLog Event.listCall = false := rfl

@[simp] theorem isLog_updateCall (s : String) : isLog (Event.updateCall s) = false := rfl

@[simp] theorem isLog_createCall : isLog Event.createCall = false := rfl

@[simp] theorem isLog_getCall (s : String) : isLog (Event.getCall s) = false := rfl

@[simp] theorem isLog_sleepEvent (n : Int) : isLog (Event.sleepEvent n) = false := rfl

@[simp] theorem isLog_outputLine (l : String) : isLog (Event.outputLine l) = false := rfl

@[simp] theorem isLog_log (l : String) : isLog (Event.log l) = true := rfl

/-- `upload_file` returns the same id for both values of `verbose`, and the
same events apart from log lines. -/
theorem upload_file_verbose (env : AttemptEnv) (ow : Bool) :
    (upload_file env ow true).1 = (upload_file env ow false).1 ∧
    observableTrace (upload_file env ow true).2 =
      observableTrace (upload_file env ow false).2 := by
  unfold upload_file observableTrace
  rcases hfe : env.fileExists with _ | _
  · simp [hfe]
  · simp only [hfe]
    rcases hl : find_existing_file env.listResp with _ | ex
    · simp only [hl]
      rcases hc : env.createResp with msg | respId
      · simp
      · simp [List.filter_append, List.filter, isLog]
    · simp only [hl]
      cases ow
      · simp
      · rcases hu : env.updateResp ex.id with msg | respId <;> simp [hu]

/-- The retry loop returns the same boolean and the same non-log trace for
both values of `verbose`, provided every successful verification fetch
carries the `id` and `name` fields that only the verbose path
bracket-indexes (otherwise the verbose run raises `KeyError` between the
fetch and the output write and skips the `file-id=` line). -/
theorem upload_loop_verbose (env : RunEnv) (ow : Bool) (d M : Int)
    (hinfo : ∀ i s info, (env.attemptEnv i).getResp s = .ok info →
      info.id ≠ none ∧ info.name ≠ none) :
    ∀ (remaining attempt : Nat),
      (upload_loop env ow true d M attempt remaining).1 =
        (upload_loop env ow false d M attempt remaining).1 ∧
      observableTrace (upload_loop env ow true d M attempt remaining).2 =
        observableTrace (upload_loop env ow false d M attempt remaining).2 := by
  intro remaining
  induction remaining with
  | zero => intro attempt; simp [upload_loop]
  | succ r ih =>
    intro attempt
    obtain ⟨ih1, ih2⟩ := ih (attempt + 1)
    obtain ⟨hf1, hf2⟩ := upload_file_verbose (env.attemptEnv attempt) ow
    simp only [observableTrace] at ih2 hf2 ⊢
    by_cases hr : (env.attemptEnv attempt).raisesUnexpected = true
    · simp only [upload_loop, hr, if_true]
      by_cases hc : (attempt : Int) < M - 1 <;>
        simp [hc, List.filter_cons, List.filter_append, ih1, ih2]
    · simp only [Bool.not_eq_true] at hr
      simp only [upload_loop, hr, Bool.false_eq_true, if_false]
      rw [hf1]
      by_cases htr : truthy (upload_file (env.attemptEnv attempt) ow false).1 = true
      · simp only [htr, if_true]
        rcases hg : (env.attemptEnv attempt).getResp
            ((upload_file (env.attemptEnv attempt) ow false).1.getD "") with msg | info
        · simp [hg, List.filter_cons, List.filter_append, hf2]
        · obtain ⟨hid2, hname⟩ := hinfo attempt _ info hg
          obtain ⟨a, ha⟩ := Option.ne_none_iff_exists'.mp hid2
          obtain ⟨b, hb⟩ := Option.ne_none_iff_exists'.mp hname
          by_cases hw : env.outputWritable = true <;>
            simp [hg, ha, hb, hw, List.filter_cons, List.filter_append, hf2]
      · simp only [Bool.not_eq_true] at htr
        simp only [htr, Bool.false_eq_true, if_false]
        by_cases hsc : (!ow && attempt == 0) = true
        · simp [hsc, List.filter_cons, hf2]
        · simp only [Bool.not_eq_true] at hsc
          by_cases hc : (attempt : Int) < M - 1 <;>
            simp [hsc, hc, List.filter_cons, List.filter_append, hf2, ih1, ih2]

@[simp] theorem isAttemptStart_attemptStart (i : Nat) :
    isAttemptStart (Event.attemptStart i) = true := rfl

@[simp] theorem isAttemptStart_listCall : isAttemptStart Event.listCall = false := rfl

@[simp] theorem isAttemptStart_updateCall (s : String) :
    isAttemptStart (Event.updateCall s) = false := rfl

@[simp] theorem isAttemptStart_createCall : isAttemptStart Event.createCall = false := rfl

@[simp] theorem isAttemptStart_getCall (s : String) :
    isAttemptStart (Event.getCall s) = false := rfl

@[simp] theorem isAttemptStart_sleepEvent (n : Int) :
    isAttemptStart (Event.sleepEvent n) = false := rfl

@[simp] theorem isAttemptStart_outputLine (l : String) :
    isAttemptStart (Event.outputLine l) = false := rfl

@[simp] theorem isAttemptStart_log (l : String) :
    isAttemptStart (Event.log l) = false := rfl

@[simp] theorem isSleep_attemptStart (i : Nat) :
    isSleep (Event.attemptStart i) = false := rfl

@[simp] theorem isSleep_listCall : isSleep Event.listCall = false := rfl

@[simp] theorem isSleep_updateCall (s : String) : isSleep (Event.updateCall s) = false := rfl

@[simp] theorem isSleep_createCall : isSleep Event.createCall = false := rfl

@[simp] theorem isSleep_getCall (s : String) : isSleep (Event.getCall s) = false := rfl

@[simp] theorem isSleep_sleepEvent (n : Int) : isSleep (Event.sleepEvent n) = true := rfl

@[simp] theorem isSleep_outputLine (l : String) : isSleep (Event.outputLine l) = false := rfl

@[simp] theorem isSleep_log (l : String) : isSleep (Event.log l) = false := rfl

/-! Concrete environments used to witness and to refute the claims. -/

/-- Local file present, empty folder, every create/update call fails with a
transport error, verification would succeed. -/
def transportFailEnv : AttemptEnv where
  fileExists := true
  listResp := .ok []
  updateResp := fun _ => .error "HTTP 500"
  createResp := .error "HTTP 500"
  getResp := fun _ => .ok { id := some "newid123", name := some "build.zip", size := some "10" }
  raisesUnexpected := false

/-- A run whose every attempt sees `transportFailEnv`. -/
def transportFailRun : RunEnv where
  attemptEnv := fun _ => transportFailEnv
  outputWritable := true

/-- An attempt that raises an unexpected exception. -/
def raisingEnv : AttemptEnv := { transportFailEnv with raisesUnexpected := true }

/-- A run whose every attempt raises an unexpected exception. -/
def raisingRun : RunEnv where
  attemptEnv := fun _ => raisingEnv
  outputWritable := true

/-- The local file path does not exist. -/
def missingFileEnv : AttemptEnv := { transportFailEnv with fileExists := false }

/-- A run whose local file is missing on every attempt. -/
def missingFileRun : RunEnv where
  attemptEnv := fun _ => missingFileEnv
  outputWritable := true

/-- Successful create of id `newid123`, but the verification fetch fails. -/
def verifyFailEnv : AttemptEnv where
  fileExists := true
  listResp := .ok []
  updateResp := fun _ => .error "HTTP 500"
  createResp := .ok (some "newid123")
  getResp := fun _ => .error "HTTP 404"
  raisesUnexpected := false

/-- A run whose first attempt uploads successfully but cannot verify. -/
def verifyFailRun : RunEnv where
  attemptEnv := fun _ => verifyFailEnv
  outputWritable := true

/-- Fully successful create with successful verification. -/
def successEnv : AttemptEnv where
  fileExists := true
  listResp := .ok []
  updateResp := fun _ => .error "HTTP 500"
  createResp := .ok (some "newid123")
  getResp := fun _ => .ok { id := some "newid123", name := some "build.zip", size := some "10" }
  raisesUnexpected := false

/-- A run that succeeds on the first attempt. -/
def successRun : RunEnv where
  attemptEnv := fun _ => successEnv
  outputWritable := true

/-- The folder already contains `build.zip` under id `existing77`; the
update response echoes the addressed id, as the Drive API does. -/
def conflictEnv : AttemptEnv where
  fileExists := true
  listResp := .ok [⟨"existing77", "build.zip"⟩]
  updateResp := fun s => .ok (some s)
  createResp := .ok (some "newid123")
  getResp := fun _ => .ok { id := some "existing77", name := some "build.zip", size := some "10" }
  raisesUnexpected := false

/-- A run against a folder that already contains the target name. -/
def conflictRun : RunEnv where
  attemptEnv := fun _ => conflictEnv
  outputWritable := true

/-- The lookup call itself fails with a transport error; create succeeds. -/
def lookupErrorEnv : AttemptEnv :=
  { conflictEnv with listResp := .error "HTTP 503" }

/-- Successful create whose verification fetch succeeds but returns
metadata missing the `id` and `name` fields that the verbose path
bracket-indexes. -/
def bareMetadataEnv : AttemptEnv :=
  { successEnv with getResp := fun _ => .ok { id := none, name := none, size := none } }

/-- A run that uploads successfully but whose verification metadata is
missing the fields read under `verbose`. -/
def bareMetadataRun : RunEnv where
  attemptEnv := fun _ => bareMetadataEnv
  outputWritable := true

/-- C1 (counterexample): with `overwrite=false` and `maxAttempts=2`, a
persistently failing transport (upload returns `None` on every attempt)
does NOT produce 2 attempts and 1 sleep: the attempt-0 short-circuit ends
the run after exactly one attempt with no sleep (still exiting 1), so the
claim's "exactly N attempts and N-1 sleeps" fails for this configuration. -/
theorem C1_counterexample :
    (upload_file transportFailEnv false false).1 = none ∧
    (upload_with_retry transportFailRun 2 5 false false).1 = false ∧
    countAttempts (upload_with_retry transportFailRun 2 5 false false).2 = 1 ∧
    sleepsOf (upload_with_retry transportFailRun 2 5 false false).2 = [] ∧
    ¬ (countAttempts (upload_with_retry transportFailRun 2 5 false false).2 = 2 ∧
       sleepsOf (upload_with_retry transportFailRun 2 5 false false).2 =
         [Event.sleepEvent 5]) := by
  decide

/-- C1 (amended): with `overwrite=true` and `maxAttempts = N >= 1`, a run
in which no attempt raises and every attempt's upload returns `None` (as
under a persistently failing transport) performs exactly N attempts and
exactly N-1 sleeps of `retryDelay` seconds each, and the process exits
with status 1. -/
theorem C1_retry_exhaustion (env : RunEnv) (vb : Bool) (d N : Int) (hN : 1 ≤ N)
    (hfail : ∀ i, (env.attemptEnv i).raisesUnexpected = false ∧
      (upload_file (env.attemptEnv i) true vb).1 = none) :
    (upload_with_retry env N d true vb).1 = false ∧
    countAttempts (upload_with_retry env N d true vb).2 = N.toNat ∧
    sleepsOf (upload_with_retry env N d true vb).2 =
      List.replicate (N.toNat - 1) (Event.sleepEvent d) ∧
    exit_status (upload_with_retry env N d true vb).1 = 1 := by
  have h := upload_loop_exhaust env true vb d N
    (fun i => Or.inr ⟨(hfail i).1, by rw [(hfail i).2]; rfl, Or.inl rfl⟩)
    N.toNat 0 (by omega)
  unfold upload_with_retry
  exact ⟨h.1, h.2.1, h.2.2, by simp [exit_status, h.1]⟩

/-- C1 witness: three transport-failing attempts with `overwrite=true`
give 3 attempts, 2 sleeps of 5 seconds, and exit status 1. -/
theorem C1_retry_exhaustion_witness :
    (upload_with_retry transportFailRun 3 5 true false).1 = false ∧
    countAttempts (upload_with_retry transportFailRun 3 5 true false).2 = 3 ∧
    sleepsOf (upload_with_retry transportFailRun 3 5 true false).2 =
      List.replicate 2 (Event.sleepEvent 5) ∧
    exit_status (upload_with_retry transportFailRun 3 5 true false).1 = 1 :=
  C1_retry_exhaustion transportFailRun false 5 3 (by decide) (fun _ => ⟨rfl, rfl⟩)

/-- C2: with `overwrite=false` and `maxAttempts >= 1`, if the upload
returns `None` on attempt 0 without raising — in particular when an object
with the target name already exists — the run performs no sleep and no
further attempt, and the process exits with status 1. -/
theorem C2_first_attempt_short_circuit (env : RunEnv) (vb : Bool) (d N : Int) (hN : 1 ≤ N)
    (h0 : (env.attemptEnv 0).raisesUnexpected = false)
    (hfid : (upload_file (env.attemptEnv 0) false vb).1 = none) :
    (upload_with_retry env N d false vb).1 = false ∧
    countAttempts (upload_with_retry env N d false vb).2 = 1 ∧
    sleepsOf (upload_with_retry env N d false vb).2 = [] ∧
    exit_status (upload_with_retry env N d false vb).1 = 1 := by
  obtain ⟨r, hr⟩ : ∃ r, N.toNat = r + 1 := ⟨N.toNat - 1, by omega⟩
  have htr : truthy (upload_file (env.attemptEnv 0) false vb).1 = false := by
    rw [hfid]; rfl
  unfold upload_with_retry
  rw [hr]
  simp only [upload_loop, h0, Bool.false_eq_true, if_false, htr]
  refine ⟨by simp, ?_, ?_, by simp [exit_status]⟩
  · simp [countAttempts, List.filter_cons, List.filter_append,
      upload_file_filter_attemptStart]
  · simp [sleepsOf, List.filter_cons, List.filter_append, upload_file_filter_sleep]

/-- C2 witness: a folder already containing the target name, with
`overwrite=false` and `maxAttempts=3`: one attempt, no sleep, exit 1. -/
theorem C2_first_attempt_short_circuit_witness :
    (upload_with_retry conflictRun 3 5 false false).1 = false ∧
    countAttempts (upload_with_retry conflictRun 3 5 false false).2 = 1 ∧
    sleepsOf (upload_with_retry conflictRun 3 5 false false).2 = [] ∧
    exit_status (upload_with_retry conflictRun 3 5 false false).1 = 1 :=
  C2_first_attempt_short_circuit conflictRun false 5 3 (by decide) rfl rfl

/-- C3 (counterexample): with `overwrite=false` and `maxAttempts=2`, an
unexpected exception is NOT treated identically to a `None` result: the
`None` run short-circuits after 1 attempt and 0 sleeps, while the
exception run performs 2 attempts and 1 sleep — the attempt-0
short-circuit does not apply to exceptions. -/
theorem C3_counterexample :
    countAttempts (upload_with_retry transportFailRun 2 5 false false).2 = 1 ∧
    sleepsOf (upload_with_retry transportFailRun 2 5 false false).2 = [] ∧
    countAttempts (upload_with_retry raisingRun 2 5 false false).2 = 2 ∧
    sleepsOf (upload_with_retry raisingRun 2 5 false false).2 = [Event.sleepEvent 5] ∧
    ¬ countAttempts (upload_with_retry raisingRun 2 5 false false).2 = 1 := by
  decide

/-- C3 (amended): an unexpected exception during an attempt is caught by
the retry controller and follows the retry and exhaustion rules of a
failed attempt — sleep `retryDelay` and retry while attempts remain, exit
1 on exhaustion — but the overwrite/attempt-0 short-circuit does NOT apply
to exceptions: a run whose every attempt raises performs all N attempts
and N-1 sleeps regardless of `overwrite`. -/
theorem C3_exception_exhaustion (env : RunEnv) (ow vb : Bool) (d N : Int) (hN : 1 ≤ N)
    (hraise : ∀ i, (env.attemptEnv i).raisesUnexpected = true) :
    (upload_with_retry env N d ow vb).1 = false ∧
    countAttempts (upload_with_retry env N d ow vb).2 = N.toNat ∧
    sleepsOf (upload_with_retry env N d ow vb).2 =
      List.replicate (N.toNat - 1) (Event.sleepEvent d) ∧
    exit_status (upload_with_retry env N d ow vb).1 = 1 := by
  have h := upload_loop_exhaust env ow vb d N (fun i => Or.inl (hraise i))
    N.toNat 0 (by omega)
  unfold upload_with_retry
  exact ⟨h.1, h.2.1, h.2.2, by simp [exit_status, h.1]⟩

/-- C3 witness: two raising attempts with `overwrite=false` give 2
attempts, 1 sleep, exit 1. -/
theorem C3_exception_exhaustion_witness :
    (upload_with_retry raisingRun 2 5 false false).1 = false ∧
    countAttempts (upload_with_retry raisingRun 2 5 false false).2 = 2 ∧
    sleepsOf (upload_with_retry raisingRun 2 5 false false).2 =
      List.replicate 1 (Event.sleepEvent 5) ∧
    exit_status (upload_with_retry raisingRun 2 5 false false).1 = 1 :=
  C3_exception_exhaustion raisingRun false false 5 2 (by decide) (fun _ => rfl)

/-- C4 (counterexample): with `overwrite=false` and `maxAttempts=2`, a
missing local file does NOT consume both attempts: the attempt-0
short-circuit ends the run after a single attempt. -/
theorem C4_counterexample :
    missingFileEnv.fileExists = false ∧
    upload_with_retry missingFileRun 2 5 false false = (false, [Event.attemptStart 0]) ∧
    ¬ countAttempts (upload_with_retry missingFileRun 2 5 false false).2 = 2 := by
  decide

/-- C4 (amended): with `overwrite=true` and `maxAttempts = N >= 1`, when
the local file path does not exist every attempt returns `None` without
raising and without any network call, all N attempts are consumed with
N-1 sleeps, and the process exits with status 1. -/
theorem C4_missing_file_exhaustion (env : RunEnv) (vb : Bool) (d N : Int) (hN : 1 ≤ N)
    (h : ∀ i, (env.attemptEnv i).raisesUnexpected = false ∧
      (env.attemptEnv i).fileExists = false) :
    (∀ i, upload_file (env.attemptEnv i) true vb = (none, [])) ∧
    (upload_with_retry env N d true vb).1 = false ∧
    countAttempts (upload_with_retry env N d true vb).2 = N.toNat ∧
    sleepsOf (upload_with_retry env N d true vb).2 =
      List.replicate (N.toNat - 1) (Event.sleepEvent d) ∧
    (upload_with_retry env N d true vb).2.filter isBackendCall = [] ∧
    exit_status (upload_with_retry env N d true vb).1 = 1 := by
  have hup : ∀ i, upload_file (env.attemptEnv i) true vb = (none, []) := by
    intro i
    unfold upload_file
    rw [(h i).2]
    simp
  have hex := upload_loop_exhaust env true vb d N
    (fun i => Or.inr ⟨(h i).1, by rw [hup i]; rfl, Or.inl rfl⟩) N.toNat 0 (by omega)
  have hnb := upload_loop_no_backend env true vb d N
    (fun i => Or.inr ⟨(h i).1, hup i⟩) N.toNat 0
  unfold upload_with_retry
  exact ⟨hup, hex.1, hex.2.1, hex.2.2, hnb, by simp [exit_status, hex.1]⟩

/-- C4 witness: a missing local file with `overwrite=true` and
`maxAttempts=3`: each attempt is a no-network `None`, 3 attempts, 2
sleeps, no backend call at all, exit 1. -/
theorem C4_missing_file_exhaustion_witness :
    upload_file missingFileEnv true false = (none, []) ∧
    (upload_with_retry missingFileRun 3 5 true false).1 = false ∧
    countAttempts (upload_with_retry missingFileRun 3 5 true false).2 = 3 ∧
    sleepsOf (upload_with_retry missingFileRun 3 5 true false).2 =
      List.replicate 2 (Event.sleepEvent 5) ∧
    (upload_with_retry missingFileRun 3 5 true false).2.filter isBackendCall = [] ∧
    exit_status (upload_with_retry missingFileRun 3 5 true false).1 = 1 := by
  have h := C4_missing_file_exhaustion missingFileRun false 5 3 (by decide)
    (fun _ => ⟨rfl, rfl⟩)
  exact ⟨h.1 0, h.2.1, h.2.2.1, h.2.2.2.1, h.2.2.2.2.1, h.2.2.2.2.2⟩

/-- C5: with `overwrite=true`, when the lookup finds an existing object
with the target name, `upload_file` issues exactly a lookup and then an
update addressed by the existing identifier — no create call — and, given
that the backend's update response carries the addressed id (as the Drive
API guarantees), returns the pre-existing object's identifier. -/
theorem C5_overwrite_updates_in_place (env : AttemptEnv) (vb : Bool)
    (files : List RemoteObject) (ex : RemoteObject)
    (hfe : env.fileExists = true) (hl : env.listResp = .ok files)
    (hhead : files.head? = some ex)
    (hupd : env.updateResp ex.id = .ok (some ex.id)) :
    upload_file env true vb =
      (some ex.id, [Event.listCall, Event.updateCall ex.id]) := by
  simp [upload_file, find_existing_file, hfe, hl, hhead, hupd]

/-- C5 witness: the folder holds `build.zip` under id `existing77`; the
overwriting upload updates in place and returns `existing77`. -/
theorem C5_overwrite_updates_in_place_witness :
    upload_file conflictEnv true false =
      (some "existing77", [Event.listCall, Event.updateCall "existing77"]) :=
  C5_overwrite_updates_in_place conflictEnv false [⟨"existing77", "build.zip"⟩]
    ⟨"existing77", "build.zip"⟩ rfl rfl rfl rfl

/-- C6: if the upload returns a (truthy) identifier on attempt 0 but the
verification fetch of that identifier's metadata fails, the run is still
treated as successful: it reports success after that single attempt and
the process exits with status 0. -/
theorem C6_verification_failure_still_success (env : RunEnv) (ow vb : Bool)
    (d N : Int) (id msg : String) (hN : 1 ≤ N)
    (h0 : (env.attemptEnv 0).raisesUnexpected = false)
    (hfid : (upload_file (env.attemptEnv 0) ow vb).1 = some id)
    (hid : id.isEmpty = false)
    (hget : (env.attemptEnv 0).getResp id = .error msg) :
    (upload_with_retry env N d ow vb).1 = true ∧
    countAttempts (upload_with_retry env N d ow vb).2 = 1 ∧
    exit_status (upload_with_retry env N d ow vb).1 = 0 := by
  obtain ⟨r, hr⟩ : ∃ r, N.toNat = r + 1 := ⟨N.toNat - 1, by omega⟩
  have htr : truthy (upload_file (env.attemptEnv 0) ow vb).1 = true := by
    rw [hfid]; simp [truthy, hid]
  have hgd : (upload_file (env.attemptEnv 0) ow vb).1.getD "" = id := by
    rw [hfid]; rfl
  unfold upload_with_retry
  rw [hr]
  simp only [upload_loop, h0, Bool.false_eq_true, if_false, htr, if_true, hgd, hget]
  refine ⟨by simp, ?_, by simp [exit_status]⟩
  simp [countAttempts, List.filter_cons, List.filter_append,
    upload_file_filter_attemptStart]

/-- C6 witness: a successful create of `newid123` whose verification fetch
fails: the run succeeds after one attempt and exits 0. -/
theorem C6_verification_failure_still_success_witness :
    (upload_with_retry verifyFailRun 3 5 false false).1 = true ∧
    countAttempts (upload_with_retry verifyFailRun 3 5 false false).2 = 1 ∧
    exit_status (upload_with_retry verifyFailRun 3 5 false false).1 = 0 :=
  C6_verification_failure_still_success verifyFailRun false false 5 3
    "newid123" "HTTP 404" (by decide) rfl rfl rfl rfl

/-- C7 (counterexample): a run whose upload succeeds but whose
verification fetch fails exits with status 0 while appending NO `file-id=`
line even though the output file is writable — success and the presence of
the structured output line do not coincide. -/
theorem C7_counterexample :
    verifyFailRun.outputWritable = true ∧
    (upload_with_retry verifyFailRun 3 5 false false).1 = true ∧
    exit_status (upload_with_retry verifyFailRun 3 5 false false).1 = 0 ∧
    (upload_with_retry verifyFailRun 3 5 false false).2.filter isOutputLine = [] := by
  decide

/-- C7 (amended): with the output file writable, success and the presence
of the `file-id=<id>` line coincide provided every verification step
succeeds — the metadata fetch returns and carries the `id` and `name`
fields that the code reads from it on the verbose path: such a run exits 0
iff a `file-id=<id>` line was appended.  (When the verification step fails
— the fetch raises, or a field it reads is absent — the run still exits 0
but appends nothing; see the counterexample.) -/
theorem C7_output_iff_success (env : RunEnv) (ow vb : Bool) (d N : Int)
    (hout : env.outputWritable = true)
    (hver : ∀ i s, ∃ info, (env.attemptEnv i).getResp s = .ok info ∧
      info.id ≠ none ∧ info.name ≠ none) :
    (upload_with_retry env N d ow vb).1 = true ↔
      ∃ id, Event.outputLine ("file-id=" ++ id) ∈
        (upload_with_retry env N d ow vb).2 := by
  unfold upload_with_retry
  constructor
  · exact upload_loop_output_of_success env ow vb d N hout hver N.toNat 0
  · rintro ⟨id, hid⟩
    exact upload_loop_success_of_output env ow vb d N N.toNat 0 _ hid

/-- C7 witness: a fully successful run appends a `file-id=` line. -/
theorem C7_output_iff_success_witness :
    ∃ id, Event.outputLine ("file-id=" ++ id) ∈
      (upload_with_retry successRun 3 5 false false).2 :=
  (C7_output_iff_success successRun false false 5 3 rfl
    (fun _ _ => ⟨{ id := some "newid123", name := some "build.zip", size := some "10" },
      rfl, by simp, by simp⟩)).mp (by decide)

/-- C8: `find_existing_file` never propagates a backend error — on a
transport error it returns `None` — and the caller then treats this as "no
conflict": `upload_file` proceeds on the create path (it issues a create
call and never an update call, for either value of `overwrite`) and
returns the create response's id. -/
theorem C8_lookup_error_assumes_no_conflict (env : AttemptEnv) (ow vb : Bool)
    (msg : String) (hfe : env.fileExists = true) (hl : env.listResp = .error msg) :
    find_existing_file env.listResp = none ∧
    Event.createCall ∈ (upload_file env ow vb).2 ∧
    (∀ s, Event.updateCall s ∉ (upload_file env ow vb).2) ∧
    (∀ r, env.createResp = .ok r → (upload_file env ow vb).1 = r) := by
  have hfind : find_existing_file env.listResp = none := by
    rw [hl]; rfl
  refine ⟨hfind, ?_, ?_, ?_⟩ <;>
    unfold upload_file <;>
    rw [hfind] <;>
    rcases hc : env.createResp with msg2 | respId <;>
    by_cases hv : vb = true <;>
    simp [hfe, hv, hc]

/-- C8 witness: a lookup that fails with HTTP 503 yields no conflict; the
upload takes the create path and returns the created id `newid123`. -/
theorem C8_lookup_error_assumes_no_conflict_witness :
    find_existing_file lookupErrorEnv.listResp = none ∧
    Event.createCall ∈ (upload_file lookupErrorEnv false false).2 ∧
    Event.updateCall "existing77" ∉ (upload_file lookupErrorEnv false false).2 ∧
    (upload_file lookupErrorEnv false false).1 = some "newid123" := by
  have h := C8_lookup_error_assumes_no_conflict lookupErrorEnv false false
    "HTTP 503" rfl rfl
  exact ⟨h.1, h.2.1, h.2.2.1 "existing77", h.2.2.2 (some "newid123") rfl⟩

/-- C9: with `maxAttempts <= 0` the loop body never runs: the run performs
zero attempts — no lookup, upload, verification or sleep, an empty event
trace — returns failure, and the process exits with status 1. -/
theorem C9_nonpositive_max_attempts (env : RunEnv) (N d : Int) (ow vb : Bool)
    (hN : N ≤ 0) :
    upload_with_retry env N d ow vb = (false, []) ∧
    countAttempts (upload_with_retry env N d ow vb).2 = 0 ∧
    exit_status (upload_with_retry env N d ow vb).1 = 1 := by
  have h0 : N.toNat = 0 := by omega
  unfold upload_with_retry
  rw [h0]
  exact ⟨rfl, rfl, rfl⟩

/-- C9 witness: `maxAttempts = -2` gives an empty run that exits 1. -/
theorem C9_nonpositive_max_attempts_witness :
    upload_with_retry transportFailRun (-2) 5 false false = (false, []) ∧
    countAttempts (upload_with_retry transportFailRun (-2) 5 false false).2 = 0 ∧
    exit_status (upload_with_retry transportFailRun (-2) 5 false false).1 = 1 :=
  C9_nonpositive_max_attempts transportFailRun (-2) 5 false false (by decide)

/-- C10 (counterexample): two runs identical in all inputs and backend
responses that differ only in `verbose` can differ in their structured
output, not just logging.  With a successful upload whose verification
fetch returns metadata missing the `id`/`name` fields, the verbose run
raises `KeyError` at the `file_info['id']` bracket-index (lines 240-241),
caught at line 249, and never reaches the `GITHUB_OUTPUT` write, while
the non-verbose run with the identical backend response appends the
`file-id=` line; both exit 0. -/
theorem C10_counterexample :
    (upload_with_retry bareMetadataRun 3 5 false true).1 = true ∧
    (upload_with_retry bareMetadataRun 3 5 false false).1 = true ∧
    (upload_with_retry bareMetadataRun 3 5 false false).2.filter isOutputLine =
      [Event.outputLine "file-id=newid123"] ∧
    (upload_with_retry bareMetadataRun 3 5 false true).2.filter isOutputLine = [] ∧
    ¬ observableTrace (upload_with_retry bareMetadataRun 3 5 false true).2 =
        observableTrace (upload_with_retry bareMetadataRun 3 5 false false).2 := by
  decide

/-- C10 (amended): two runs identical in all inputs and backend responses
that differ only in `verbose` return the same boolean (hence the same
exit status) and the same non-log event trace — the same backend calls in
the same order, the same sleeps, and the same appended output line —
provided every successful verification fetch returns metadata containing
the `id` and `name` fields that only the verbose path bracket-indexes.
Without that proviso both runs still exit 0, but the verbose run skips
the `file-id=` line the non-verbose run writes (see the counterexample). -/
theorem C10_verbose_noninterference (env : RunEnv) (ow : Bool) (N d : Int)
    (hinfo : ∀ i s info, (env.attemptEnv i).getResp s = .ok info →
      info.id ≠ none ∧ info.name ≠ none) :
    (upload_with_retry env N d ow true).1 = (upload_with_retry env N d ow false).1 ∧
    observableTrace (upload_with_retry env N d ow true).2 =
      observableTrace (upload_with_retry env N d ow false).2 ∧
    exit_status (upload_with_retry env N d ow true).1 =
      exit_status (upload_with_retry env N d ow false).1 := by
  unfold upload_with_retry
  obtain ⟨h1, h2⟩ := upload_loop_verbose env ow d N hinfo N.toNat 0
  exact ⟨h1, h2, by rw [h1]⟩

/-- C10 witness: a fully successful run whose verification metadata is
complete behaves identically for both verbose settings. -/
theorem C10_verbose_noninterference_witness :
    (upload_with_retry successRun 3 5 false true).1 =
      (upload_with_retry successRun 3 5 false false).1 ∧
    observableTrace (upload_with_retry successRun 3 5 false true).2 =
      observableTrace (upload_with_retry successRun 3 5 false false).2 ∧
    exit_status (upload_with_retry successRun 3 5 false true).1 =
      exit_status (upload_with_retry successRun 3 5 false false).1 :=
  C10_verbose_noninterference successRun false 3 5 (by
    intro i s info h
    have h3 : (Except.ok (FileInfo.mk (some "newid123") (some "build.zip") (some "10")) : Except String FileInfo) = Except.ok info := h
    injection h3 with h4
    subst h4
    exact ⟨by simp, by simp⟩)

end UploadToDrive
